import Mathlib

/-!
Shallow embedding of the ESG dashboard (src/esg-dashboard/dashboard.py).

The script runs one linear rendering pass: it reads two sidebar selections
(fiscal year, organizational scope), generates indicator and series data
(mostly hard-coded constants, two numpy random draws), and renders charts.
We embed the data-generation layer as pure Lean functions.  The process-wide
numpy random generator is modelled as an explicit `Rand` record supplying the
sampling primitives the script calls (np.random.normal; a uniform channel is
included so that claims about the distribution family used can be stated).
Machine floats are modelled as rationals.
-/

namespace ESGDash

/-- Organizational scope: the options of the sidebar selectbox
`st.sidebar.selectbox("Scope", ["Global", "North America", "EMEA", "APAC"])`. -/
inductive Scope where
  | globalScope
  | northAmerica
  | emea
  | apac
deriving DecidableEq, Repr

/-- The enumerated scope options, in selectbox order. -/
def scopes : List Scope := [.globalScope, .northAmerica, .emea, .apac]

/-- The enumerated fiscal years of
`st.sidebar.selectbox("Fiscal Year", [2025, 2024, 2023])`. -/
def fiscalYears : List Nat := [2025, 2024, 2023]

/-- Display label of a scope, as it appears in the selectbox list. -/
def scopeLabel : Scope → String
  | .globalScope => "Global"
  | .northAmerica => "North America"
  | .emea => "EMEA"
  | .apac => "APAC"

/-- The injected random source standing for numpy's process-wide default
generator.  `normal mean std i` is the i-th draw of an
`np.random.normal(mean, std, n)` call; `uniform low high i` is the i-th draw
of a uniform sampler (not called by the script, but needed to state claims
about which distribution family the script samples from). -/
structure Rand where
  normal : ℚ → ℚ → Nat → ℚ
  uniform : ℚ → ℚ → Nat → ℚ

/-- A random source returning the constant `c` on every draw. -/
def constRand (c : ℚ) : Rand :=
  { normal := fun _ _ _ => c, uniform := fun _ _ _ => c }

/-- Delta color mode of `st.metric` (default "normal", or "inverse"). -/
inductive DeltaColor where
  | normal
  | inverse
deriving DecidableEq, Repr

/-- An Indicator: one summary card rendered by `st.metric`. -/
structure Indicator where
  name : String
  value : ℚ
  formatted : String
  delta : String
  deltaColor : DeltaColor
deriving DecidableEq, Repr

/-- A Series: an ordered x sequence with a same-indexed y sequence, as handed
to one chart trace. -/
structure Series where
  label : String
  x : List String
  y : List ℚ
deriving DecidableEq, Repr

/-- Thousands padding used by `commaSep`. -/
def pad3 (n : Nat) : String :=
  if n < 10 then "00" ++ toString n
  else if n < 100 then "0" ++ toString n
  else toString n

/-- Python's thousands-separator format `f"{v:,}"`, for v < 10^6
(the only range the script formats this way). -/
def commaSep (n : Nat) : String :=
  if n < 1000 then toString n
  else toString (n / 1000) ++ "," ++ pad3 (n % 1000)

/-- Line 97: `val_ghg = 54000 if selected_year == 2024 else 49500`. -/
def val_ghg (year : Nat) : Nat :=
  if year = 2024 then 54000 else 49500

/-- Line 98: `val_energy = 120 if selected_year == 2024 else 115`. -/
def val_energy (year : Nat) : Nat :=
  if year = 2024 then 120 else 115

/-- Card `st.metric("Total GHG Emissions", f"{val_ghg:,} tCO2e", "-8.5%")`. -/
def ghgIndicator (year : Nat) : Indicator :=
  { name := "Total GHG Emissions"
    value := (val_ghg year : ℚ)
    formatted := commaSep (val_ghg year) ++ " tCO2e"
    delta := "-8.5%"
    deltaColor := .normal }

/-- Card `st.metric("Energy Intensity", f"{val_energy} kWh/Unit", "-4.2%")`. -/
def energyIndicator (year : Nat) : Indicator :=
  { name := "Energy Intensity"
    value := (val_energy year : ℚ)
    formatted := toString (val_energy year) ++ " kWh/Unit"
    delta := "-4.2%"
    deltaColor := .normal }

/-- Card `st.metric("Water Withdrawal", "1.5M m³", "+1.2%", delta_color="inverse")`. -/
def waterIndicator : Indicator :=
  { name := "Water Withdrawal"
    value := 1500000
    formatted := "1.5M m³"
    delta := "+1.2%"
    deltaColor := .inverse }

/-- Card `st.metric("ESRS Compliance", "88%", "+12%")`. -/
def complianceIndicator : Indicator :=
  { name := "ESRS Compliance"
    value := 88
    formatted := "88%"
    delta := "+12%"
    deltaColor := .normal }

/-- Card `st.metric("Supplier ESG Score", "74/100", "+2.5")`. -/
def supplierIndicator : Indicator :=
  { name := "Supplier ESG Score"
    value := 74
    formatted := "74/100"
    delta := "+2.5"
    deltaColor := .normal }

/-- The 12 month-end labels of
`pd.date_range(start=f"{selected_year}-01-01", periods=12, freq='M')`. -/
def monthLabels (year : Nat) : List String :=
  (List.range 12).map (fun m => toString year ++ "-" ++ toString (m + 1))

/-- Value of `np.linspace(6000, 4500, 12)` at index i: 12 evenly spaced values from
6000 to 4500 inclusive, step (4500 - 6000)/11. -/
def linspaceVal (i : Nat) : ℚ :=
  6000 + (i : ℚ) * ((4500 - 6000) / 11)

/-- Line 119: `trend_vals = np.linspace(6000, 4500, 12) + np.random.normal(0, 100, 12)`. -/
def trend_vals (r : Rand) : List ℚ :=
  (List.range 12).map (fun i => linspaceVal i + r.normal 0 100 i)

/-- The GHG Emissions Trend series: `df_trend` handed to `px.area`. -/
def trendSeries (year : Nat) (r : Rand) : Series :=
  { label := "GHG Emissions Trend"
    x := monthLabels year
    y := trend_vals r }

/-- Energy Consumption by Facility (`px.bar`, lines 133-137). -/
def energySeries : Series :=
  { label := "Energy Consumption by Facility"
    x := ["Facility A", "Facility B", "Facility C"]
    y := [220, 180, 110] }

/-- Water Withdrawal by Region (`px.bar`, lines 144-148). -/
def waterSeries : Series :=
  { label := "Water Withdrawal by Region"
    x := ["Region X", "Region Y", "Region Z"]
    y := [50, 40, 25] }

/-- Line 166: `scores = np.random.normal(72, 10, 200)`. -/
def scores (r : Rand) : List ℚ :=
  (List.range 200).map (fun i => r.normal 72 10 i)

/-- Supplier ESG Score Distribution (`px.box(y=scores)`); the x sequence is
the implicit sample index 0..199 assigned by the plotting library. -/
def distSeries (r : Rand) : Series :=
  { label := "Supplier ESG Score Dist."
    x := (List.range 200).map toString
    y := scores r }

/-- Incident counts per quarter (`go.Bar`, line 211). -/
def incidentSeries : Series :=
  { label := "Count"
    x := ["Q1", "Q2", "Q3", "Q4"]
    y := [4, 2, 5, 1] }

/-- Response hours per quarter (`go.Scatter`, line 212). -/
def responseSeries : Series :=
  { label := "Hours"
    x := ["Q1", "Q2", "Q3", "Q4"]
    y := [24, 12, 18, 8] }

/-- Pie chart data (labels with values). -/
structure PieChart where
  labels : List String
  values : List ℚ
deriving DecidableEq, Repr

/-- Conflict Minerals donut:
`go.Pie(labels=['Compliant', 'Non-Compliant'], values=[98, 2], hole=0.7)`. -/
def mineralsPie : PieChart :=
  { labels := ["Compliant", "Non-Compliant"]
    values := [98, 2] }

/-- The compliant share of the conflict-minerals pie, as a percentage:
first slice over total, times 100 (the "98%" center annotation). -/
def compliantShare : ℚ :=
  mineralsPie.values.headD 0 / mineralsPie.values.sum * 100

/-- One Sankey link (line 238-241): source node index, target node index,
flow value. -/
structure SankeyLink where
  source : Nat
  target : Nat
  value : ℚ
deriving DecidableEq, Repr

/-- The node labels of the value-chain Sankey (line 235). -/
def sankeyLabels : List String :=
  ["Sourcing", "Manufacturing", "Distribution", "Use Phase", "Recycling", "Landfill"]

/-- The Sankey links: `source=[0,1,1,2,3,3]`, `target=[1,2,5,3,4,5]`,
`value=[100,85,15,85,60,25]` zipped. -/
def sankeyLinks : List SankeyLink :=
  [⟨0, 1, 100⟩, ⟨1, 2, 85⟩, ⟨1, 5, 15⟩, ⟨2, 3, 85⟩, ⟨3, 4, 60⟩, ⟨3, 5, 25⟩]

/-- Total value flowing into node n. -/
def inflow (n : Nat) : ℚ :=
  ((sankeyLinks.filter (fun l => l.target == n)).map SankeyLink.value).sum

/-- Total value flowing out of node n. -/
def outflow (n : Nat) : ℚ :=
  ((sankeyLinks.filter (fun l => l.source == n)).map SankeyLink.value).sum

/-- Node n is the target of some link. -/
def isTarget (n : Nat) : Bool :=
  sankeyLinks.any (fun l => l.target == n)

/-- Node n is the source of some link. -/
def isSource (n : Nat) : Bool :=
  sankeyLinks.any (fun l => l.source == n)

/-- The full data output of one render pass of the Metric Generator. -/
structure Dashboard where
  indicators : List Indicator
  series : List Series
  minerals : PieChart
  gaugeValue : ℚ
  sankey : List SankeyLink
deriving DecidableEq, Repr

/-- The Metric Generator: all Indicator and Series data of one render pass,
as a function of the two sidebar selections and the random source.  Mirrors
the script top to bottom: the five KPI metrics, the six chart series, the
conflict-minerals pie, the CSRD gauge value 85, and the Sankey links. -/
def generate (year : Nat) (scope : Scope) (r : Rand) : Dashboard :=
  let _ := scope
  { indicators :=
      [ghgIndicator year, energyIndicator year, waterIndicator,
       complianceIndicator, supplierIndicator]
    series :=
      [trendSeries year r, energySeries, waterSeries,
       distSeries r, incidentSeries, responseSeries]
    minerals := mineralsPie
    gaugeValue := 85
    sankey := sankeyLinks }

/-- Value of the indicator named nm in dashboard d, if present. -/
def indicatorValue (d : Dashboard) (nm : String) : Option ℚ :=
  (d.indicators.find? (fun i => i.name == nm)).map Indicator.value

/-- The rendered page: the header markdown (line 89) plus the generated data. -/
structure Page where
  header : String
  dash : Dashboard

/-- Header `st.markdown(f"Overview of sustainability performance for
**{selected_scope}** in **FY {selected_year}**.")`. -/
def headerText (scope : Scope) (year : Nat) : String :=
  "Overview of sustainability performance for **" ++ scopeLabel scope
    ++ "** in **FY " ++ toString year ++ "**."

/-- One full render pass: header plus generated data. -/
def render (year : Nat) (scope : Scope) (r : Rand) : Page :=
  { header := headerText scope year
    dash := generate year scope r }

/-- The trend as the spec sentence for C8 describes it: uniform noise added
to the linear ramp (same ramp and noise-scale parameters, but drawn from the
uniform channel of the random source instead of the normal channel). -/
def specUniformTrendVals (r : Rand) : List ℚ :=
  (List.range 12).map (fun i => linspaceVal i + r.uniform 0 100 i)

/-- The shape-and-value invariants 1-4 of the spec, over the output of one
generation: every series has equally long x and y; the two year-conditional
indicator values; the percentage indicators lie in [0,100]; the sampled
series have their fixed documented lengths. -/
def WellFormedDash (year : Nat) (scope : Scope) (r : Rand) : Prop :=
  (∀ sr ∈ (generate year scope r).series, sr.x.length = sr.y.length) ∧
  indicatorValue (generate year scope r) "Total GHG Emissions"
    = some (if year = 2024 then 54000 else 49500) ∧
  indicatorValue (generate year scope r) "Energy Intensity"
    = some (if year = 2024 then 120 else 115) ∧
  (∃ v, indicatorValue (generate year scope r) "ESRS Compliance" = some v ∧
    0 ≤ v ∧ v ≤ 100) ∧
  (0 ≤ compliantShare ∧ compliantShare ≤ 100) ∧
  (trend_vals r).length = 12 ∧ (scores r).length = 200

/-- Helper: every series of a generated dashboard has equally long x and y. -/
theorem seriesLen_aux (year : Nat) (scope : Scope) (r : Rand) :
    ∀ sr ∈ (generate year scope r).series, sr.x.length = sr.y.length := by
  intro sr h
  simp only [generate, List.mem_cons, List.not_mem_nil, or_false] at h
  rcases h with rfl | rfl | rfl | rfl | rfl | rfl <;>
    simp [trendSeries, monthLabels, trend_vals, energySeries, waterSeries,
      distSeries, scores, incidentSeries, responseSeries]

/-- Helper: the generated GHG indicator value for each enumerated year. -/
theorem ghgValue_aux (year : Nat) (hy : year ∈ fiscalYears) (scope : Scope) (r : Rand) :
    indicatorValue (generate year scope r) "Total GHG Emissions"
      = some (if year = 2024 then (54000 : ℚ) else 49500) := by
  simp only [fiscalYears, List.mem_cons, List.not_mem_nil, or_false] at hy
  rcases hy with rfl | rfl | rfl <;> rfl

/-- Helper: the generated Energy Intensity indicator value for each enumerated year. -/
theorem energyValue_aux (year : Nat) (hy : year ∈ fiscalYears) (scope : Scope) (r : Rand) :
    indicatorValue (generate year scope r) "Energy Intensity"
      = some (if year = 2024 then (120 : ℚ) else 115) := by
  simp only [fiscalYears, List.mem_cons, List.not_mem_nil, or_false] at hy
  rcases hy with rfl | rfl | rfl <;> rfl

/-- Helper: all shape-and-value invariants hold for every enumerated year,
every scope and every random source. -/
theorem wellFormed_all (year : Nat) (hy : year ∈ fiscalYears) (scope : Scope) (r : Rand) :
    WellFormedDash year scope r := by
  refine ⟨seriesLen_aux year scope r, ghgValue_aux year hy scope r,
    energyValue_aux year hy scope r, ⟨88, rfl, by norm_num, by norm_num⟩,
    ⟨?_, ?_⟩, by simp [trend_vals], by simp [scores]⟩ <;>
  norm_num [compliantShare, mineralsPie]

/-- C1: for every fiscal year in {2025, 2024, 2023}, the generated emissions
total is 54000 when the year is 2024 and 49500 otherwise, and the energy
intensity is 120 when the year is 2024 and 115 otherwise. -/
theorem c1_year_conditional_indicators (year : Nat) (hy : year ∈ fiscalYears)
    (scope : Scope) (r : Rand) :
    indicatorValue (generate year scope r) "Total GHG Emissions"
      = some (if year = 2024 then (54000 : ℚ) else 49500) ∧
    indicatorValue (generate year scope r) "Energy Intensity"
      = some (if year = 2024 then (120 : ℚ) else 115) :=
  ⟨ghgValue_aux year hy scope r, energyValue_aux year hy scope r⟩

/-- Witness for C1 at year 2024. -/
theorem c1_year_conditional_indicators_witness :
    2024 ∈ fiscalYears ∧
    (indicatorValue (generate 2024 .globalScope (constRand 0)) "Total GHG Emissions"
        = some (if 2024 = 2024 then (54000 : ℚ) else 49500) ∧
      indicatorValue (generate 2024 .globalScope (constRand 0)) "Energy Intensity"
        = some (if 2024 = 2024 then (120 : ℚ) else 115)) :=
  ⟨by decide, c1_year_conditional_indicators 2024 (by decide) .globalScope (constRand 0)⟩

/-- C2: in the Sankey flow data, every node that is both a target and a
source of links sends no more than it receives; node 1 ("Manufacturing")
receives 100 and sends 85 + 15 = 100. -/
theorem c2_sankey_conservation :
    (∀ n : Nat, isTarget n = true → isSource n = true → outflow n ≤ inflow n) ∧
    sankeyLabels[1]? = some "Manufacturing" ∧
    inflow 1 = 100 ∧ outflow 1 = 85 + 15 := by
  refine ⟨?_, rfl, ?_, ?_⟩
  · intro n h1 h2
    simp only [isTarget, sankeyLinks, List.any_cons, List.any_nil, Bool.or_eq_true,
      beq_iff_eq, Bool.or_false] at h1
    rcases h1 with rfl | rfl | rfl | rfl | rfl | rfl <;>
      norm_num [outflow, inflow, sankeyLinks, List.filter_cons, List.filter_nil]
  · norm_num [inflow, sankeyLinks, List.filter_cons, List.filter_nil]
  · norm_num [outflow, sankeyLinks, List.filter_cons, List.filter_nil]

/-- Witness for C2 at the intermediate node 2 ("Distribution"). -/
theorem c2_sankey_conservation_witness :
    isTarget 2 = true ∧ isSource 2 = true ∧ outflow 2 ≤ inflow 2 :=
  ⟨by decide, by decide, c2_sankey_conservation.1 2 (by decide) (by decide)⟩

/-- C3: every Series produced by the Metric Generator has an x sequence and
a y sequence of equal length, for every year, scope and random source. -/
theorem c3_series_lengths_equal (year : Nat) (scope : Scope) (r : Rand) :
    ∀ sr ∈ (generate year scope r).series, sr.x.length = sr.y.length :=
  seriesLen_aux year scope r

/-- Witness for C3 at the facility-energy series. -/
theorem c3_series_lengths_equal_witness :
    energySeries ∈ (generate 2025 .globalScope (constRand 0)).series ∧
    energySeries.x.length = energySeries.y.length :=
  ⟨by simp [generate], c3_series_lengths_equal 2025 .globalScope (constRand 0)
    energySeries (by simp [generate])⟩

/-- C4: the randomly sampled series have fixed lengths regardless of inputs
and of the random draws: the monthly trend (series index 0) has 12 points
and the score distribution sample (series index 3) has 200 points. -/
theorem c4_fixed_sample_counts (year : Nat) (scope : Scope) (r : Rand) :
    ((generate year scope r).series[0]?).map (fun sr => sr.y.length) = some 12 ∧
    ((generate year scope r).series[3]?).map (fun sr => sr.y.length) = some 200 := by
  constructor <;> simp [generate, trendSeries, trend_vals, distSeries, scores]

/-- C5: changing only the fiscal year leaves the water-withdrawal,
compliance and supplier-score indicator cards (all their fields) unchanged:
for any two enumerated years they are the same three records. -/
theorem c5_other_indicators_unchanged (y1 : Nat) (h1 : y1 ∈ fiscalYears)
    (y2 : Nat) (h2 : y2 ∈ fiscalYears) (scope : Scope) (r : Rand) :
    (generate y1 scope r).indicators.drop 2 = (generate y2 scope r).indicators.drop 2 ∧
    (generate y1 scope r).indicators.drop 2
      = [waterIndicator, complianceIndicator, supplierIndicator] :=
  ⟨rfl, rfl⟩

/-- Witness for C5 comparing years 2024 and 2023. -/
theorem c5_other_indicators_unchanged_witness :
    2024 ∈ fiscalYears ∧ 2023 ∈ fiscalYears ∧
    ((generate 2024 .globalScope (constRand 0)).indicators.drop 2
        = (generate 2023 .globalScope (constRand 0)).indicators.drop 2 ∧
      (generate 2024 .globalScope (constRand 0)).indicators.drop 2
        = [waterIndicator, complianceIndicator, supplierIndicator]) :=
  ⟨by decide, by decide, c5_other_indicators_unchanged 2024 (by decide) 2023 (by decide)
    .globalScope (constRand 0)⟩

/-- C6: every percentage-valued indicator lies in [0, 100]: the ESRS
compliance value and the conflict-minerals compliant share. -/
theorem c6_percentages_in_range (year : Nat) (hy : year ∈ fiscalYears)
    (scope : Scope) (r : Rand) :
    (∃ v, indicatorValue (generate year scope r) "ESRS Compliance" = some v ∧
      0 ≤ v ∧ v ≤ 100) ∧
    0 ≤ compliantShare ∧ compliantShare ≤ 100 := by
  refine ⟨⟨88, rfl, by norm_num, by norm_num⟩, ?_, ?_⟩ <;>
  norm_num [compliantShare, mineralsPie]

/-- Witness for C6 at year 2025. -/
theorem c6_percentages_in_range_witness :
    2025 ∈ fiscalYears ∧
    ((∃ v, indicatorValue (generate 2025 .globalScope (constRand 0)) "ESRS Compliance"
        = some v ∧ 0 ≤ v ∧ v ≤ 100) ∧
      0 ≤ compliantShare ∧ compliantShare ≤ 100) :=
  ⟨by decide, c6_percentages_in_range 2025 (by decide) .globalScope (constRand 0)⟩

/-- C7: generation is non-deterministic in the injected random source (two
sources can give different trend samples), yet every random source yields
output satisfying invariants 1-4 for every enumerated year and every scope. -/
theorem c7_nondeterminism_with_invariants :
    (∃ r1 r2 : Rand, trend_vals r1 ≠ trend_vals r2 ∧ scores r1 ≠ scores r2) ∧
    (∀ year ∈ fiscalYears, ∀ (scope : Scope) (r : Rand), WellFormedDash year scope r) := by
  refine ⟨⟨constRand 0, constRand 1, ?_, ?_⟩, ?_⟩
  · intro h
    have h0 := congrArg (fun l => l[0]?) h
    norm_num [trend_vals, constRand, List.getElem?_map, List.getElem?_range] at h0
  · intro h
    have h0 := congrArg (fun l => l[0]?) h
    norm_num [scores, constRand, List.getElem?_map, List.getElem?_range] at h0
  · intro year hy scope r
    exact wellFormed_all year hy scope r

/-- Witness for C7 at year 2024, scope Global, the zero random source. -/
theorem c7_nondeterminism_with_invariants_witness :
    2024 ∈ fiscalYears ∧ WellFormedDash 2024 .globalScope (constRand 0) :=
  ⟨by decide, c7_nondeterminism_with_invariants.2 2024 (by decide) .globalScope (constRand 0)⟩

/-- C8 counterexample: at a random source whose normal channel always draws
1 and whose uniform channel always draws 0, the trend the code computes
differs from a ramp plus uniform noise; the code adds draws from the normal
channel, not the uniform channel, to the linear ramp. -/
theorem c8_trend_noise_counterexample :
    trend_vals (Rand.mk (fun _ _ _ => 1) (fun _ _ _ => 0))
      ≠ specUniformTrendVals (Rand.mk (fun _ _ _ => 1) (fun _ _ _ => 0)) := by
  intro h
  have h0 := congrArg (fun l => l[0]?) h
  norm_num [trend_vals, specUniformTrendVals,
    List.getElem?_map, List.getElem?_range] at h0

/-- C8 amended: the monthly trend is the linear ramp plus normal-channel
noise with mean 0 and standard deviation 100, and the score distribution is
normal-channel sampling with mean 72 and standard deviation 10; both depend
on the random source only through its normal channel. -/
theorem c8_trend_normal_noise :
    (∀ r1 r2 : Rand, r1.normal = r2.normal →
      trend_vals r1 = trend_vals r2 ∧ scores r1 = scores r2) ∧
    (∀ (r : Rand), ∀ i < 12,
      (trend_vals r)[i]? = some (linspaceVal i + r.normal 0 100 i)) ∧
    (∀ (r : Rand), ∀ i < 200, (scores r)[i]? = some (r.normal 72 10 i)) := by
  refine ⟨fun r1 r2 h => ?_, fun r i hi => ?_, fun r i hi => ?_⟩
  · constructor <;> simp [trend_vals, scores, h]
  · simp [trend_vals, List.getElem?_map, List.getElem?_range, hi]
  · simp [scores, List.getElem?_map, List.getElem?_range, hi]

/-- Witness for the amended C8 at index 0 of both sampled series. -/
theorem c8_trend_normal_noise_witness :
    (0 : Nat) < 12 ∧
    (trend_vals (constRand 5))[0]? = some (linspaceVal 0 + (constRand 5).normal 0 100 0) ∧
    (scores (constRand 5))[0]? = some ((constRand 5).normal 72 10 0) :=
  ⟨by decide, c8_trend_normal_noise.2.1 (constRand 5) 0 (by decide),
    c8_trend_normal_noise.2.2 (constRand 5) 0 (by decide)⟩

/-- C9: the Metric Generator is total over the enumerated inputs: for every
fiscal year in the selectbox list, every scope in the selectbox list and
every random source, generation produces a dashboard satisfying all the
shape-and-value invariants (there is no error branch in the pass). -/
theorem c9_generator_total (year : Nat) (hy : year ∈ fiscalYears)
    (scope : Scope) (hs : scope ∈ scopes) (r : Rand) :
    WellFormedDash year scope r :=
  wellFormed_all year hy scope r

/-- Witness for C9 at year 2023, scope APAC. -/
theorem c9_generator_total_witness :
    2023 ∈ fiscalYears ∧ Scope.apac ∈ scopes ∧
    WellFormedDash 2023 .apac (constRand 0) :=
  ⟨by decide, by decide, c9_generator_total 2023 (by decide) .apac (by decide) (constRand 0)⟩

/-- C10: the selected scope has no effect on any generated data - for any
two scopes, the same year and the same random source, the generated
dashboards are identical; the scope does reach the header text, where two
different scopes produce different headers. -/
theorem c10_scope_only_in_header :
    (∀ (year : Nat) (r : Rand) (s1 s2 : Scope),
      (render year s1 r).dash = (render year s2 r).dash) ∧
    (render 2025 .globalScope (constRand 0)).header
      ≠ (render 2025 .emea (constRand 0)).header := by
  refine ⟨fun year r s1 s2 => rfl, by decide⟩

end ESGDash
